import Mathlib

/-!
Verification development for the SoundCode pattern-music studio.

The backend DSL compiler (lark grammar, PatternTransformer, pydantic models and
the parse endpoint) is embedded as executable Lean functions, together with the
frontend audio engine (audioEngine.js) modelled as a state-transformer over an
explicit engine-state record.  Times, velocities and durations are rationals
standing for the double-precision beat counts of the source.
-/

/-! ## Lexical layer: character classes and token readers

The grammar's terminals are regular expressions; each reader below performs the
maximal-munch read of one terminal from a character list.
-/

/-- Whitespace characters ignored between tokens (lark common.WS). -/
def isWsChar (c : Char) : Bool :=
  c = ' ' || c = '\t' || c = '\n' || c = '\r' || c = '\x0b' || c = '\x0c'

/-- Drop leading ignored whitespace. -/
def skipWs : List Char → List Char
  | [] => []
  | c :: cs => if isWsChar c then skipWs cs else c :: cs

/-- First character of an INSTRUMENT token. -/
def isIdentStart (c : Char) : Bool := c.isAlpha || c = '_'

/-- Subsequent characters of an INSTRUMENT token. -/
def isIdentChar (c : Char) : Bool := c.isAlpha || c.isDigit || c = '_'

/-- Read an INSTRUMENT token matching the terminal regex. -/
def readIdent (cs : List Char) : Option (String × List Char) :=
  match cs with
  | [] => none
  | c :: rest =>
    if isIdentStart c then
      let p := rest.span isIdentChar
      some (String.mk (c :: p.1), p.2)
    else none

/-- Read a maximal run of letters, the percussion alternative of NOTE. -/
def readLetters (cs : List Char) : Option (String × List Char) :=
  let p := cs.span Char.isAlpha
  if p.1.isEmpty then none else some (String.mk p.1, p.2)

/-- Read a NOTE token: a pitched name, one of A-G with optional accidental and
one digit, or else a bare run of letters (percussion label). -/
def readNote (cs : List Char) : Option (String × List Char) :=
  match cs with
  | [] => none
  | c :: rest =>
    if 'A' ≤ c ∧ c ≤ 'G' then
      match rest with
      | a :: d :: rest2 =>
        if (a = '#' || a = 'b') && d.isDigit then some (String.mk [c, a, d], rest2)
        else if a.isDigit then some (String.mk [c, a], d :: rest2)
        else readLetters (c :: rest)
      | [a] => if a.isDigit then some (String.mk [c, a], []) else readLetters (c :: rest)
      | [] => readLetters (c :: rest)
    else readLetters (c :: rest)

/-- Decimal value of a digit string. -/
def digitsToNat (ds : List Char) : Nat :=
  ds.foldl (fun a c => a * 10 + (c.toNat - '0'.toNat)) 0

/-- Read a TIMESTAMP token, digits with an optional fractional part, and return
its numeric value as the transformer's float conversion would. -/
def readNumber (cs : List Char) : Option (Rat × List Char) :=
  let p := cs.span Char.isDigit
  if p.1.isEmpty then none
  else
    match p.2 with
    | '.' :: rest2 =>
      let q := rest2.span Char.isDigit
      if q.1.isEmpty then none
      else
        some (mkRat (digitsToNat p.1 * 10 ^ q.1.length + digitsToNat q.1) (10 ^ q.1.length), q.2)
    | _ => some ((digitsToNat p.1 : Rat), p.2)

/-- Consume one expected punctuation character. -/
def expectChar (c : Char) (cs : List Char) : Except String (List Char) :=
  match cs with
  | [] => Except.error "unexpected end of input"
  | c' :: rest => if c' = c then Except.ok rest else Except.error "unexpected character"

/-- Read a MODULE_NAME token, a double-quoted identifier; the lexeme keeps its
quotes, as the lark token does. -/
def readModuleName (cs : List Char) : Option (String × List Char) :=
  match cs with
  | '\"' :: rest =>
    match readIdent rest with
    | some (id, rest2) =>
      match rest2 with
      | '\"' :: rest3 => some ("\"" ++ id ++ "\"", rest3)
      | _ => none
    | none => none
  | _ => none

/-! ## Data model: transformer dictionaries and pydantic models -/

/-- Dictionary produced by PatternTransformer.statement. -/
structure Stmt where
  instrument : String
  note : String
  time : Rat
  deriving DecidableEq

/-- Pydantic ImportStatement model; the transformer's import dictionary has the
same two fields. -/
structure ImportStatement where
  instrument : String
  module : String
  deriving DecidableEq

/-- Dictionary produced by PatternTransformer.pattern_block. -/
structure Block where
  block_type : String
  statements : List Stmt
  deriving DecidableEq

/-- Pydantic NoteEvent model, with schema defaults for velocity and duration. -/
structure NoteEvent where
  instrument : String
  note : String
  time : Rat
  velocity : Rat
  duration : Rat
  deriving DecidableEq

/-- Pydantic Pattern model: the compiled pattern document. -/
structure Pattern where
  imports : List ImportStatement
  patterns : List (String × List NoteEvent)
  deriving DecidableEq

/-- Pydantic ParseResponse model returned by the parse endpoint. -/
structure ParseResponse where
  success : Bool
  pattern : Option Pattern
  error : Option String
  deriving DecidableEq

/-- Assignment into a Python dict rendered as an insertion-ordered association
list: an existing key keeps its position and gets the new value, a new key is
appended at the end. -/
def dictInsert {α : Type} (k : String) (v : α) : List (String × α) → List (String × α)
  | [] => [(k, v)]
  | (k', v') :: rest => if k' = k then (k', v) :: rest else (k', v') :: dictInsert k v rest

/-- Lookup in an insertion-ordered association list. -/
def lookupKey {α : Type} (k : String) : List (String × α) → Option α
  | [] => none
  | (k', v) :: rest => if k' = k then some v else lookupKey k rest

/-- One transformed child of the start rule: an import dictionary or a block
dictionary. -/
inductive Item where
  | imp (i : ImportStatement)
  | blk (b : Block)
  deriving DecidableEq

/-- Value built by PatternTransformer.start before response validation. -/
structure RawPattern where
  imports : List ImportStatement
  patterns : List (String × List Stmt)
  deriving DecidableEq

namespace PatternTransformer

/-- Transformer rule for statement: items are the INSTRUMENT and NOTE lexemes
and the float value of the TIMESTAMP lexeme. -/
def statement (instrument note : String) (time : Rat) : Stmt :=
  { instrument := instrument, note := note, time := time }

/-- Transformer rule for import_statement. -/
def import_statement (instrument mod : String) : ImportStatement :=
  { instrument := instrument, module := mod }

/-- Transformer rule for pattern_block: the first item is the BLOCK_TYPE lexeme,
the rest are the statement dictionaries, kept in source order. -/
def pattern_block (block_type : String) (statements : List Stmt) : Block :=
  { block_type := block_type, statements := statements }

/-- One iteration of the loop in the start rule: imports are appended, a block
is assigned into the patterns dict under its block type. -/
def startStep (result : RawPattern) (item : Item) : RawPattern :=
  match item with
  | Item.imp i => { result with imports := result.imports ++ [i] }
  | Item.blk b => { result with patterns := dictInsert b.block_type b.statements result.patterns }

/-- Transformer rule for start: fold the transformed children, in tree order,
into the result dictionary. -/
def start (items : List Item) : RawPattern :=
  items.foldl startStep { imports := [], patterns := [] }

end PatternTransformer

/-- Validation of a statement dictionary against the NoteEvent model: the
missing velocity and duration fields take the schema defaults 1.0 and 0.5. -/
def NoteEvent.ofStmt (s : Stmt) : NoteEvent :=
  { instrument := s.instrument, note := s.note, time := s.time, velocity := 1,
    duration := mkRat 1 2 }

/-- Validation of the transformer output against the Pattern response model. -/
def Pattern.validate (r : RawPattern) : Pattern :=
  { imports := r.imports,
    patterns := r.patterns.map (fun p => (p.1, p.2.map NoteEvent.ofStmt)) }

/-! ## Parser

Recursive descent over the grammar
start: import_statement* pattern_block+ with
import_statement: "import" INSTRUMENT "from" MODULE_NAME ";",
pattern_block: BLOCK_TYPE "\x7b" statement* "\x7d",
statement: INSTRUMENT NOTE TIMESTAMP ";".
Starred rules recurse on a fuel argument that the top entry point sets large
enough for any input.
-/

/-- The four BLOCK_TYPE keywords. -/
def BLOCK_TYPE : List String := ["melody", "rhythm", "harmony", "contrast"]

/-- Parse one statement: INSTRUMENT NOTE TIMESTAMP ";". -/
def parseStatement (cs : List Char) : Except String (Stmt × List Char) :=
  match readIdent (skipWs cs) with
  | none => Except.error "expected instrument"
  | some (inst, cs1) =>
    match readNote (skipWs cs1) with
    | none => Except.error "expected note"
    | some (note, cs2) =>
      match readNumber (skipWs cs2) with
      | none => Except.error "expected timestamp"
      | some (t, cs3) =>
        match expectChar ';' (skipWs cs3) with
        | Except.error e => Except.error e
        | Except.ok cs4 => Except.ok (PatternTransformer.statement inst note t, cs4)

/-- Parse statement*, stopping in front of the closing brace. -/
def parseStatements : Nat → List Char → Except String (List Stmt × List Char)
  | 0, _ => Except.error "too many statements"
  | fuel + 1, cs =>
    match skipWs cs with
    | '}' :: rest => Except.ok ([], '}' :: rest)
    | cs' =>
      match parseStatement cs' with
      | Except.error e => Except.error e
      | Except.ok (st, rest) =>
        match parseStatements fuel rest with
        | Except.error e => Except.error e
        | Except.ok (sts, rest') => Except.ok (st :: sts, rest')

/-- Parse one pattern_block. -/
def parseBlock (fuel : Nat) (cs : List Char) : Except String (Block × List Char) :=
  match readIdent (skipWs cs) with
  | none => Except.error "expected block keyword"
  | some (kw, cs1) =>
    if kw ∈ BLOCK_TYPE then
      match expectChar '{' (skipWs cs1) with
      | Except.error e => Except.error e
      | Except.ok cs2 =>
        match parseStatements fuel cs2 with
        | Except.error e => Except.error e
        | Except.ok (sts, cs3) =>
          match expectChar '}' (skipWs cs3) with
          | Except.error e => Except.error e
          | Except.ok cs4 => Except.ok (PatternTransformer.pattern_block kw sts, cs4)
    else Except.error "expected block keyword"

/-- Parse the remainder of one import statement after its leading keyword. -/
def parseImportTail (cs : List Char) : Except String (ImportStatement × List Char) :=
  match readIdent (skipWs cs) with
  | none => Except.error "expected instrument name"
  | some (inst, cs1) =>
    match readIdent (skipWs cs1) with
    | none => Except.error "expected from"
    | some (kw, cs2) =>
      if kw = "from" then
        match readModuleName (skipWs cs2) with
        | none => Except.error "expected module name"
        | some (m, cs3) =>
          match expectChar ';' (skipWs cs3) with
          | Except.error e => Except.error e
          | Except.ok cs4 => Except.ok (PatternTransformer.import_statement inst m, cs4)
      else Except.error "expected from"

/-- Parse import_statement*. -/
def parseImports : Nat → List Char → Except String (List ImportStatement × List Char)
  | 0, _ => Except.error "too many imports"
  | fuel + 1, cs =>
    match readIdent (skipWs cs) with
    | some (kw, rest) =>
      if kw = "import" then
        match parseImportTail rest with
        | Except.error e => Except.error e
        | Except.ok (i, rest2) =>
          match parseImports fuel rest2 with
          | Except.error e => Except.error e
          | Except.ok (is, rest3) => Except.ok (i :: is, rest3)
      else Except.ok ([], skipWs cs)
    | none => Except.ok ([], skipWs cs)

/-- Parse further pattern_blocks until the input is exhausted. -/
def parseBlocksRest : Nat → List Char → Except String (List Block)
  | 0, _ => Except.error "too many blocks"
  | fuel + 1, cs =>
    match skipWs cs with
    | [] => Except.ok []
    | cs' =>
      match parseBlock fuel cs' with
      | Except.error e => Except.error e
      | Except.ok (b, rest) =>
        match parseBlocksRest fuel rest with
        | Except.error e => Except.error e
        | Except.ok bs => Except.ok (b :: bs)

/-- Parse a whole program: import_statement* then pattern_block+ (the grammar
requires at least one block). -/
def parseProgram (s : String) : Except String (List ImportStatement × List Block) :=
  match parseImports (s.toList.length + 1) s.toList with
  | Except.error e => Except.error e
  | Except.ok (imps, rest) =>
    match parseBlock (s.toList.length + 1) rest with
    | Except.error e => Except.error e
    | Except.ok (b, rest2) =>
      match parseBlocksRest (s.toList.length + 1) rest2 with
      | Except.error e => Except.error e
      | Except.ok bs => Except.ok (imps, b :: bs)

/-- Transformed children of the start rule, in tree order: imports first, then
blocks. -/
def itemsOf (imps : List ImportStatement) (blks : List Block) : List Item :=
  imps.map Item.imp ++ blks.map Item.blk

/-- Full compile: parse, transform, validate against the response models. -/
def compile (code : String) : Except String Pattern :=
  match parseProgram code with
  | Except.error e => Except.error e
  | Except.ok (imps, blks) =>
    Except.ok (Pattern.validate (PatternTransformer.start (itemsOf imps blks)))

/-- The parse endpoint: every outcome of the compile pipeline is caught and
rendered as a ParseResponse. -/
def parse_pattern (pattern_code : String) : ParseResponse :=
  match compile pattern_code with
  | Except.ok p => { success := true, pattern := some p, error := none }
  | Except.error e => { success := false, pattern := none, error := some e }

/-! ## Audio engine (audioEngine.js)

The engine's module-level state (Tone.Transport, the instruments table, the
created parts and the current pattern reference) is an explicit record, and
each exported function is a state transformer.  An instrument entry carries
an optional unit standing for the sampler object, so that a key bound to null
and a missing key are both falsy lookups, as in the source.
-/

/-- The three Tone.Transport states. -/
inductive TransportState where
  | started
  | paused
  | stopped
  deriving DecidableEq

/-- One Tone.Part created for a track. -/
structure TonePart where
  events : List (Rat × NoteEvent)
  loop : Bool
  loopEnd : Rat
  startOffset : Rat
  deriving DecidableEq

/-- A triggerAttackRelease call observed by an instrument, in beats. -/
structure Trigger where
  instrument : String
  note : String
  duration : Rat
  velocity : Rat
  deriving DecidableEq

/-- The audio engine's module-level mutable state. -/
structure EngineState where
  transportState : TransportState
  position : Rat
  bpm : Rat
  transportLoop : Bool
  transportLoopEnd : Rat
  parts : List (String × TonePart)
  currentPattern : Option Pattern
  instruments : List (String × Option Unit)
  deriving DecidableEq

/-- State before initAudio: the three instrument keys exist but are null. -/
def initialEngineState : EngineState :=
  { transportState := TransportState.stopped, position := 0, bpm := 120,
    transportLoop := false, transportLoopEnd := 0, parts := [],
    currentPattern := none,
    instruments := [("piano", none), ("synth", none), ("guitar", none)] }

/-- initAudio: create the samplers, set bpm 120 and the transport loop of four
measures, sixteen beats. -/
def initAudio (s : EngineState) : EngineState :=
  { s with
    instruments := [("piano", some ()), ("synth", some ()), ("guitar", some ())],
    bpm := 120, transportLoop := true, transportLoopEnd := 16 }

/-- Truthiness of an entry of the instruments object: a missing key and a key
bound to null are both falsy. -/
def instrLookup (tbl : List (String × Option Unit)) (name : String) : Option Unit :=
  match lookupKey name tbl with
  | some (some u) => some u
  | some none => none
  | none => none

/-- playNote: a falsy instrument entry logs and returns; otherwise the sampler
is triggered for an eighth note, half a beat. -/
def playNote (s : EngineState) (instrumentName note : String) :
    EngineState × Option Trigger :=
  match instrLookup s.instruments instrumentName with
  | none => (s, none)
  | some _ =>
    (s, some { instrument := instrumentName, note := note, duration := mkRat 1 2, velocity := 1 })

/-- stopPattern: stop the transport, reset the position, dispose every part and
drop the current pattern reference. -/
def stopPattern (s : EngineState) : EngineState :=
  { s with transportState := TransportState.stopped, position := 0,
           parts := [], currentPattern := none }

/-- The Tone.Part built for one track: its events keyed by time, looping with a
fixed loop end of sixteen, started at offset zero. -/
def mkTonePart (notes : List NoteEvent) : TonePart :=
  { events := notes.map (fun n => (n.time, n)), loop := true, loopEnd := 16,
    startOffset := 0 }

/-- playPattern: clear any existing pattern via stopPattern, store the new
pattern, create one part per track, then start the transport. -/
def playPattern (s : EngineState) (pattern : Pattern) : EngineState :=
  let s1 := stopPattern s
  let s2 := { s1 with
    currentPattern := some pattern,
    parts := pattern.patterns.map (fun p : String × List NoteEvent => (p.1, mkTonePart p.2)) }
  { s2 with transportState := TransportState.started }

/-- pausePattern: pause the transport; its position is retained. -/
def pausePattern (s : EngineState) : EngineState :=
  { s with transportState := TransportState.paused }

/-- setBpm. -/
def setBpm (s : EngineState) (bpm : Rat) : EngineState :=
  { s with bpm := bpm }

/-- The Tone.Part callback of playPattern for one event: a falsy instrument
entry logs and returns without a trigger; otherwise the sampler is triggered
with the event's duration and velocity, each replaced by its default when
falsy. -/
def partCallback (tbl : List (String × Option Unit)) (note : NoteEvent) : Option Trigger :=
  match instrLookup tbl note.instrument with
  | none => none
  | some _ =>
    some { instrument := note.instrument, note := note.note,
           duration := if note.duration = 0 then mkRat 1 2 else note.duration,
           velocity := if note.velocity = 0 then 1 else note.velocity }

/-- Triggers produced when the scheduler fires a list of events: each event
runs the part callback independently. -/
def fireEvents (tbl : List (String × Option Unit)) (notes : List NoteEvent) : List Trigger :=
  notes.filterMap (partCallback tbl)

/-- Modelled from the spec: the loop length is the maximum time plus duration
across all tracks, or the fixed fallback of sixteen beats for an empty
document.  This follows the spec's words for comparison with the code's fixed
loop end; it is not drawn from the source. -/
def spec_loopLength (doc : Pattern) : Rat :=
  match (doc.patterns.map (fun p => p.2.map (fun e => e.time + e.duration))).flatten with
  | [] => 16
  | x :: xs => xs.foldl max x

/-- Adjacent-pairs time-sortedness of a stored track. -/
def sortedByTime : List NoteEvent → Bool
  | a :: b :: rest => decide (a.time ≤ b.time) && sortedByTime (b :: rest)
  | _ => true

/-- Adjacent-pairs time-sortedness of a block's source statements. -/
def sortedStmts : List Stmt → Bool
  | a :: b :: rest => decide (a.time ≤ b.time) && sortedStmts (b :: rest)
  | _ => true

/-- The statements stored for a block type by repeated dict assignment: those
of the last block of that type, if any. -/
def lastBlockStmts (bt : String) : List Item → Option (List Stmt)
  | [] => none
  | Item.imp _ :: rest => lastBlockStmts bt rest
  | Item.blk b :: rest =>
    match lastBlockStmts bt rest with
    | some s => some s
    | none => if b.block_type = bt then some b.statements else none

/-- The document of the worked example: three piano notes in a melody track. -/
def exampleDoc : Pattern :=
  { imports := [],
    patterns := [("melody",
      [{ instrument := "piano", note := "C4", time := 0, velocity := 1, duration := mkRat 1 2 },
       { instrument := "piano", note := "E4", time := mkRat 1 2, velocity := 1, duration := mkRat 1 2 },
       { instrument := "piano", note := "G4", time := 1, velocity := 1, duration := mkRat 1 2 }])] }

/-- A state paused mid-playback: the example pattern was playing and the
transport had advanced to beat five when pausePattern ran. -/
def pausedEngineState : EngineState :=
  pausePattern { playPattern (initAudio initialEngineState) exampleDoc with position := 5 }

/-! ## Helper lemmas -/

theorem lookupKey_dictInsert {α : Type} (k q : String) (v : α) (l : List (String × α)) :
    lookupKey q (dictInsert k v l) = if k = q then some v else lookupKey q l := by
  induction l with
  | nil => simp [dictInsert, lookupKey]
  | cons a rest ih =>
    obtain ⟨k', v'⟩ := a
    by_cases hk : k' = k
    · subst hk
      by_cases hq : k' = q <;> simp [dictInsert, lookupKey, hq]
    · by_cases hq : k' = q
      · subst hq
        have hkq : k ≠ k' := fun h => hk h.symm
        simp [dictInsert, lookupKey, hk, hkq]
      · simp [dictInsert, lookupKey, hk, hq, ih]

theorem lookup_foldl_startStep (items : List Item) (acc : RawPattern) (bt : String) :
    lookupKey bt (List.foldl PatternTransformer.startStep acc items).patterns =
      (match lastBlockStmts bt items with
       | some s => some s
       | none => lookupKey bt acc.patterns) := by
  induction items generalizing acc with
  | nil => rfl
  | cons item rest ih =>
    cases item with
    | imp i =>
      simp only [List.foldl_cons, lastBlockStmts]
      rw [ih]
      cases lastBlockStmts bt rest <;> simp [PatternTransformer.startStep]
    | blk b =>
      simp only [List.foldl_cons, lastBlockStmts]
      rw [ih]
      cases h : lastBlockStmts bt rest with
      | some s => rfl
      | none =>
        simp only [PatternTransformer.startStep, lookupKey_dictInsert]
        by_cases hb : b.block_type = bt <;> simp [hb]

theorem lastBlockStmts_mem (bt : String) (items : List Item) :
    ∀ s, lastBlockStmts bt items = some s →
      ∃ b : Block, Item.blk b ∈ items ∧ b.block_type = bt ∧ b.statements = s := by
  induction items with
  | nil => intro s h; cases h
  | cons item rest ih =>
    intro s h
    cases item with
    | imp i =>
      obtain ⟨b, hmem, hbt, hst⟩ := ih s h
      exact ⟨b, List.mem_cons_of_mem _ hmem, hbt, hst⟩
    | blk b =>
      simp only [lastBlockStmts] at h
      cases hr : lastBlockStmts bt rest with
      | some s' =>
        rw [hr] at h
        obtain ⟨b', hmem, hbt, hst⟩ := ih s' hr
        cases h
        exact ⟨b', List.mem_cons_of_mem _ hmem, hbt, hst⟩
      | none =>
        rw [hr] at h
        by_cases hb : b.block_type = bt
        · rw [if_pos hb] at h
          cases h
          exact ⟨b, List.mem_cons_self _ _, hb, rfl⟩
        · rw [if_neg hb] at h
          cases h

theorem blk_mem_itemsOf (b : Block) (imps : List ImportStatement) (blks : List Block)
    (h : Item.blk b ∈ itemsOf imps blks) : b ∈ blks := by
  simp only [itemsOf, List.mem_append, List.mem_map] at h
  rcases h with ⟨i, _, hi⟩ | ⟨b', hb', he⟩
  · cases hi
  · cases he
    exact hb'

theorem lookupKey_map_snd {α β : Type} (k : String) (f : α → β) (l : List (String × α)) :
    lookupKey k (l.map (fun p => (p.1, f p.2))) = (lookupKey k l).map f := by
  induction l with
  | nil => rfl
  | cons a rest ih =>
    obtain ⟨k', v⟩ := a
    by_cases hk : k' = k
    · simp [lookupKey, hk]
    · simp [lookupKey, hk, ih]

theorem sortedByTime_map_ofStmt (l : List Stmt) (h : sortedStmts l = true) :
    sortedByTime (l.map NoteEvent.ofStmt) = true := by
  induction l with
  | nil => rfl
  | cons a rest ih =>
    cases rest with
    | nil => rfl
    | cons b rest2 =>
      simp only [sortedStmts, Bool.and_eq_true] at h
      simp only [List.map_cons, sortedByTime, Bool.and_eq_true]
      exact ⟨h.1, ih h.2⟩

theorem compile_ok_structure (s : String) (doc : Pattern) (h : compile s = Except.ok doc) :
    ∃ imps blks, parseProgram s = Except.ok (imps, blks) ∧
      doc = Pattern.validate (PatternTransformer.start (itemsOf imps blks)) := by
  unfold compile at h
  cases hp : parseProgram s with
  | error e => rw [hp] at h; cases h
  | ok r =>
    rw [hp] at h
    obtain ⟨imps, blks⟩ := r
    cases h
    exact ⟨imps, blks, rfl, rfl⟩

theorem parseProgram_blocks_ne_nil (s : String) (imps : List ImportStatement)
    (blks : List Block) (h : parseProgram s = Except.ok (imps, blks)) : blks ≠ [] := by
  unfold parseProgram at h
  split at h
  · cases h
  · split at h
    · cases h
    · split at h
      · cases h
      · cases h
        simp

theorem dictInsert_ne_nil {α : Type} (k : String) (v : α) (l : List (String × α)) :
    dictInsert k v l ≠ [] := by
  cases l with
  | nil => simp [dictInsert]
  | cons a rest =>
    obtain ⟨k', v'⟩ := a
    simp only [dictInsert]
    split <;> simp

theorem foldl_startStep_patterns_ne_nil (items : List Item) (acc : RawPattern)
    (hacc : acc.patterns ≠ []) :
    (List.foldl PatternTransformer.startStep acc items).patterns ≠ [] := by
  induction items generalizing acc with
  | nil => simpa using hacc
  | cons item rest ih =>
    cases item with
    | imp i => exact ih _ hacc
    | blk b => exact ih _ (dictInsert_ne_nil _ _ _)

theorem foldl_startStep_blk_ne_nil (items : List Item) (acc : RawPattern) (b : Block)
    (hmem : Item.blk b ∈ items) :
    (List.foldl PatternTransformer.startStep acc items).patterns ≠ [] := by
  induction items generalizing acc with
  | nil => cases hmem
  | cons item rest ih =>
    rcases List.mem_cons.mp hmem with heq | hmem'
    · subst heq
      exact foldl_startStep_patterns_ne_nil rest _ (dictInsert_ne_nil _ _ _)
    · exact ih _ hmem'

/-- Lookup in the compiled patterns dict is the last block of that type: the
start rule begins from an empty dict, so there is no earlier binding to fall
back to. -/
theorem lookupKey_start (items : List Item) (bt : String) :
    lookupKey bt (PatternTransformer.start items).patterns = lastBlockStmts bt items := by
  have h := lookup_foldl_startStep items { imports := [], patterns := [] } bt
  rw [PatternTransformer.start, h]
  cases lastBlockStmts bt items <;> rfl


/-- Decidable equality of compile results, for evaluating concrete runs. -/
instance {α β : Type} [DecidableEq α] [DecidableEq β] : DecidableEq (Except α β) := fun a b =>
  match a, b with
  | Except.error x, Except.error y =>
    if h : x = y then Decidable.isTrue (by rw [h]) else Decidable.isFalse (by simp [h])
  | Except.ok x, Except.ok y =>
    if h : x = y then Decidable.isTrue (by rw [h]) else Decidable.isFalse (by simp [h])
  | Except.error _, Except.ok _ => Decidable.isFalse (by simp)
  | Except.ok _, Except.error _ => Decidable.isFalse (by simp)

/-! ## Claims -/

/-- C1, counterexample: compiling a block whose statements are out of time
order stores the track in source order, not sorted by time: the adjacent pair
E4 at one half before C4 at zero violates time-ascending order. -/
theorem track_order_not_sorted :
    compile "melody \x7b piano E4 0.5; piano C4 0; \x7d" =
      Except.ok
        { imports := [],
          patterns := [("melody",
            [{ instrument := "piano", note := "E4", time := mkRat 1 2, velocity := 1,
               duration := mkRat 1 2 },
             { instrument := "piano", note := "C4", time := 0, velocity := 1,
               duration := mkRat 1 2 }])] } ∧
    sortedByTime
      [{ instrument := "piano", note := "E4", time := mkRat 1 2, velocity := 1,
         duration := mkRat 1 2 },
       { instrument := "piano", note := "C4", time := 0, velocity := 1,
         duration := mkRat 1 2 }] = false := by
  constructor
  · decide
  · decide

/-- C1, amended: the compiler stores each track in source-statement order and
performs no sort, so tracks are sorted by time ascending exactly when the
source already is: if every parsed block's statement list is nondecreasing in
time, then every track of the compiled document is sorted by time ascending. -/
theorem track_sorted_of_source_sorted (s : String) (imps : List ImportStatement)
    (blks : List Block) (doc : Pattern)
    (hp : parseProgram s = Except.ok (imps, blks))
    (hc : compile s = Except.ok doc)
    (hsorted : ∀ b ∈ blks, sortedStmts b.statements = true)
    (bt : String) (evs : List NoteEvent)
    (hl : lookupKey bt doc.patterns = some evs) :
    sortedByTime evs = true := by
  obtain ⟨imps', blks', hp', hdoc⟩ := compile_ok_structure s doc hc
  rw [hp] at hp'
  simp only [Except.ok.injEq, Prod.mk.injEq] at hp'
  obtain ⟨h1, h2⟩ := hp'
  subst h1
  subst h2
  subst hdoc
  simp only [Pattern.validate] at hl
  rw [lookupKey_map_snd] at hl
  cases hr : lookupKey bt (PatternTransformer.start (itemsOf imps blks)).patterns with
  | none => rw [hr] at hl; cases hl
  | some sts =>
    rw [hr] at hl
    simp only [Option.map_some'] at hl
    cases hl
    rw [lookupKey_start] at hr
    obtain ⟨b, hmem, _, hst⟩ := lastBlockStmts_mem bt (itemsOf imps blks) sts hr
    have hb : b ∈ blks := blk_mem_itemsOf b imps blks hmem
    subst hst
    exact sortedByTime_map_ofStmt _ (hsorted b hb)

/-- Witness for track_sorted_of_source_sorted at the worked three-note example,
whose source statements are already in time order. -/
theorem track_sorted_of_source_sorted_witness :
    sortedByTime
      [{ instrument := "piano", note := "C4", time := 0, velocity := 1, duration := mkRat 1 2 },
       { instrument := "piano", note := "E4", time := mkRat 1 2, velocity := 1,
         duration := mkRat 1 2 },
       { instrument := "piano", note := "G4", time := 1, velocity := 1,
         duration := mkRat 1 2 }] = true :=
  track_sorted_of_source_sorted "melody \x7b piano C4 0; piano E4 0.5; piano G4 1.0; \x7d"
    []
    [{ block_type := "melody",
       statements :=
         [{ instrument := "piano", note := "C4", time := 0 },
          { instrument := "piano", note := "E4", time := mkRat 1 2 },
          { instrument := "piano", note := "G4", time := 1 }] }]
    exampleDoc
    (by decide) (by decide) (by decide) "melody"
    [{ instrument := "piano", note := "C4", time := 0, velocity := 1, duration := mkRat 1 2 },
     { instrument := "piano", note := "E4", time := mkRat 1 2, velocity := 1,
       duration := mkRat 1 2 },
     { instrument := "piano", note := "G4", time := 1, velocity := 1, duration := mkRat 1 2 }]
    (by decide)

/-- C2, counterexample: a program with two melody blocks compiles successfully;
the later block's single E4 statement replaces the earlier block's track, so
compile neither fails with a SemanticError nor keeps the first block. -/
theorem duplicate_block_not_rejected :
    compile "melody \x7b piano C4 0; \x7d melody \x7b piano E4 1; \x7d" =
      Except.ok
        { imports := [],
          patterns := [("melody",
            [{ instrument := "piano", note := "E4", time := 1, velocity := 1,
               duration := mkRat 1 2 }])] } := by
  decide

/-- C2, amended: duplicate block types are not rejected; the patterns dict maps
every block type to the statements of the last block of that type in the
program, each later assignment replacing the earlier one in place. -/
theorem duplicate_block_last_wins (items : List Item) (bt : String) :
    lookupKey bt (PatternTransformer.start items).patterns = lastBlockStmts bt items :=
  lookupKey_start items bt

/-- C3, counterexample: the empty input does not compile to a document with an
empty patterns mapping; the parse endpoint reports failure with no pattern,
because the grammar demands at least one block. -/
theorem empty_input_rejected :
    (parse_pattern "").success = false ∧ (parse_pattern "").pattern = none := by
  constructor
  · decide
  · decide

/-- C3, amended: the grammar requires at least one pattern_block, so programs
with no blocks, among them the empty input, never compile; every successful
compile returns a document with at least one track. -/
theorem compile_ok_patterns_ne_nil (s : String) (doc : Pattern)
    (h : compile s = Except.ok doc) : doc.patterns ≠ [] := by
  obtain ⟨imps, blks, hp, hdoc⟩ := compile_ok_structure s doc h
  have hblks := parseProgram_blocks_ne_nil s imps blks hp
  subst hdoc
  cases blks with
  | nil => exact absurd rfl hblks
  | cons b bs =>
    have hmem : Item.blk b ∈ itemsOf imps (b :: bs) := by
      simp [itemsOf]
    have hne := foldl_startStep_blk_ne_nil (itemsOf imps (b :: bs))
      { imports := [], patterns := [] } b hmem
    simp only [Pattern.validate, PatternTransformer.start]
    intro hcontra
    rw [List.map_eq_nil_iff] at hcontra
    exact hne hcontra

/-- Witness for compile_ok_patterns_ne_nil at a concrete one-block program. -/
theorem compile_ok_patterns_ne_nil_witness :
    ({ imports := [],
       patterns := [("melody",
         [{ instrument := "piano", note := "C4", time := 0, velocity := 1,
            duration := mkRat 1 2 }])] } : Pattern).patterns ≠ [] :=
  compile_ok_patterns_ne_nil "melody \x7b piano C4 0; \x7d" _ (by decide)

/-- C4: every NoteEvent of every compiled document carries the schema defaults,
velocity one and duration half a beat, and the worked example compiles to the
three-event melody track with exactly those defaults. -/
theorem schema_defaults_apply :
    (∀ s doc, compile s = Except.ok doc →
      ∀ p ∈ doc.patterns, ∀ e ∈ p.2, e.velocity = 1 ∧ e.duration = mkRat 1 2) ∧
    compile "melody \x7b piano C4 0; piano E4 0.5; piano G4 1.0; \x7d" =
      Except.ok exampleDoc := by
  constructor
  · intro s doc hc p hp e he
    obtain ⟨imps, blks, hparse, hdoc⟩ := compile_ok_structure s doc hc
    subst hdoc
    simp only [Pattern.validate, List.mem_map] at hp
    obtain ⟨q, hq, rfl⟩ := hp
    simp only [List.mem_map] at he
    obtain ⟨st, hst, rfl⟩ := he
    exact ⟨rfl, rfl⟩
  · decide

/-- Witness for the universally quantified half of schema_defaults_apply at a
concrete one-statement program. -/
theorem schema_defaults_apply_witness :
    ({ instrument := "piano", note := "C4", time := 0, velocity := 1,
       duration := mkRat 1 2 } : NoteEvent).velocity = 1 ∧
    ({ instrument := "piano", note := "C4", time := 0, velocity := 1,
       duration := mkRat 1 2 } : NoteEvent).duration = mkRat 1 2 :=
  schema_defaults_apply.1 "melody \x7b piano C4 0; \x7d"
    { imports := [],
      patterns := [("melody",
        [{ instrument := "piano", note := "C4", time := 0, velocity := 1,
           duration := mkRat 1 2 }])] }
    (by decide)
    ("melody",
      [{ instrument := "piano", note := "C4", time := 0, velocity := 1,
         duration := mkRat 1 2 }])
    (by simp)
    { instrument := "piano", note := "C4", time := 0, velocity := 1, duration := mkRat 1 2 }
    (by simp)

/-- C5, counterexample: for the nonempty example document, whose maximum time
plus duration is three halves, every created part still loops at the fixed
sixteen beats, so the loop length is not the documentwise maximum with a
fallback reserved for empty documents. -/
theorem loop_length_fixed_counterexample :
    ((playPattern (initAudio initialEngineState) exampleDoc).parts.map
      (fun p => p.2.loopEnd)) = [16] ∧
    spec_loopLength exampleDoc = mkRat 3 2 ∧
    (mkRat 3 2 = (16 : Rat) → False) ∧
    exampleDoc.patterns ≠ [] := by
  refine ⟨by decide, ?_, by decide, by decide⟩
  simp [spec_loopLength, exampleDoc]
  norm_num [mkRat]

/-- C5, amended: playPattern gives every part it creates loop true and the
fixed loop end of sixteen beats, whatever the loaded document holds; the
per-part loop length never depends on the events' times and durations. -/
theorem parts_loop_sixteen (s : EngineState) (doc : Pattern)
    (p : String × TonePart) (hp : p ∈ (playPattern s doc).parts) :
    p.2.loop = true ∧ p.2.loopEnd = 16 := by
  simp only [playPattern, List.mem_map] at hp
  obtain ⟨q, hq, hpq⟩ := hp
  subst hpq
  exact ⟨rfl, rfl⟩

/-- Witness for parts_loop_sixteen at the example document's melody part. -/
theorem parts_loop_sixteen_witness :
    (("melody",
      mkTonePart
        [{ instrument := "piano", note := "C4", time := 0, velocity := 1,
           duration := mkRat 1 2 },
         { instrument := "piano", note := "E4", time := mkRat 1 2, velocity := 1,
           duration := mkRat 1 2 },
         { instrument := "piano", note := "G4", time := 1, velocity := 1,
           duration := mkRat 1 2 }]) : String × TonePart).2.loop = true ∧
    (("melody",
      mkTonePart
        [{ instrument := "piano", note := "C4", time := 0, velocity := 1,
           duration := mkRat 1 2 },
         { instrument := "piano", note := "E4", time := mkRat 1 2, velocity := 1,
           duration := mkRat 1 2 },
         { instrument := "piano", note := "G4", time := 1, velocity := 1,
           duration := mkRat 1 2 }]) : String × TonePart).2.loopEnd = 16 :=
  parts_loop_sixteen (initAudio initialEngineState) exampleDoc _ (by decide)

/-- C6, counterexample: with the example pattern paused at beat five, pressing
play runs playPattern, which restarts the transport at position zero instead of
resuming from the frozen position five. -/
theorem resume_does_not_preserve_position :
    pausedEngineState.transportState = TransportState.paused ∧
    pausedEngineState.position = 5 ∧
    (playPattern pausedEngineState exampleDoc).transportState = TransportState.started ∧
    (playPattern pausedEngineState exampleDoc).position = 0 ∧
    ((5 : Rat) = 0 → False) := by
  exact ⟨rfl, rfl, rfl, rfl, by decide⟩

/-- C6, amended: playPattern, the engine's only start operation, moves any
state to PLAYING and always begins from position zero, because it first runs
stopPattern, both when previously stopped and when previously paused;
pausePattern freezes the clock at its current position. -/
theorem play_resets_pause_freezes :
    (∀ s doc, (playPattern s doc).transportState = TransportState.started ∧
      (playPattern s doc).position = 0) ∧
    (∀ s, (pausePattern s).transportState = TransportState.paused ∧
      (pausePattern s).position = s.position) :=
  ⟨fun _ _ => ⟨rfl, rfl⟩, fun _ => ⟨rfl, rfl⟩⟩

/-- C7: a missing instrument at trigger time is per-event and non-fatal: the
part callback for that event returns without a trigger, and the events before
and after it in the same firing fire exactly as they would on their own. -/
theorem missing_instrument_nonfatal (tbl : List (String × Option Unit))
    (pre post : List NoteEvent) (e : NoteEvent)
    (h : instrLookup tbl e.instrument = none) :
    partCallback tbl e = none ∧
    fireEvents tbl (pre ++ e :: post) = fireEvents tbl pre ++ fireEvents tbl post := by
  have hc : partCallback tbl e = none := by
    unfold partCallback
    rw [h]
  refine ⟨hc, ?_⟩
  simp [fireEvents, List.filterMap_append, List.filterMap_cons, hc]

/-- Witness for missing_instrument_nonfatal: a flute event between two piano
events, with only the piano loaded. -/
theorem missing_instrument_nonfatal_witness :
    partCallback [("piano", some ())]
      { instrument := "flute", note := "C4", time := 0, velocity := 1,
        duration := mkRat 1 2 } = none ∧
    fireEvents [("piano", some ())]
      ([{ instrument := "piano", note := "C4", time := 0, velocity := 1,
          duration := mkRat 1 2 }] ++
        { instrument := "flute", note := "C4", time := 0, velocity := 1,
          duration := mkRat 1 2 } ::
        [{ instrument := "piano", note := "E4", time := mkRat 1 2, velocity := 1,
           duration := mkRat 1 2 }]) =
      fireEvents [("piano", some ())]
        [{ instrument := "piano", note := "C4", time := 0, velocity := 1,
           duration := mkRat 1 2 }] ++
      fireEvents [("piano", some ())]
        [{ instrument := "piano", note := "E4", time := mkRat 1 2, velocity := 1,
           duration := mkRat 1 2 }] :=
  missing_instrument_nonfatal [("piano", some ())]
    [{ instrument := "piano", note := "C4", time := 0, velocity := 1, duration := mkRat 1 2 }]
    [{ instrument := "piano", note := "E4", time := mkRat 1 2, velocity := 1,
       duration := mkRat 1 2 }]
    { instrument := "flute", note := "C4", time := 0, velocity := 1, duration := mkRat 1 2 }
    (by decide)

/-- C8: the parse endpoint is total over input strings and its response is
well-formed: it returns either success with a pattern and no error, or failure
with an error and no pattern, never any other combination. -/
theorem parse_endpoint_wellformed (s : String) :
    ((parse_pattern s).success = true ∧ (parse_pattern s).pattern ≠ none ∧
      (parse_pattern s).error = none) ∨
    ((parse_pattern s).success = false ∧ (parse_pattern s).pattern = none ∧
      (parse_pattern s).error ≠ none) := by
  cases h : compile s with
  | ok p =>
    left
    simp [parse_pattern, h]
  | error e =>
    right
    simp [parse_pattern, h]

/-- C9: stopPattern establishes the fixed post-state, transport stopped at
position zero with no parts and no current pattern, and it is idempotent. -/
theorem stopPattern_idempotent (s : EngineState) :
    (stopPattern s).transportState = TransportState.stopped ∧
    (stopPattern s).position = 0 ∧
    (stopPattern s).parts = [] ∧
    (stopPattern s).currentPattern = none ∧
    stopPattern (stopPattern s) = stopPattern s :=
  ⟨rfl, rfl, rfl, rfl, rfl⟩

/-- C10: playNote with an instrument name that has no entry in the instruments
table returns without a trigger and leaves the engine state unchanged. -/
theorem playNote_unknown_noop (s : EngineState) (instrumentName note : String)
    (h : lookupKey instrumentName s.instruments = none) :
    playNote s instrumentName note = (s, none) := by
  unfold playNote instrLookup
  rw [h]

/-- Witness for playNote_unknown_noop: a flute note against the initial
instrument table. -/
theorem playNote_unknown_noop_witness :
    playNote initialEngineState "flute" "C4" = (initialEngineState, none) :=
  playNote_unknown_noop initialEngineState "flute" "C4" (by decide)
